import Mathlib

/-!
Shallow embedding of the consolidation core of the journal application
(src/App.tsx, src/services/storageService.ts, src/services/geminiService.ts,
src/unnamed/part_000 = CalendarWidget.tsx), together with theorems settling
the specification claims.

Modelling conventions:
* JavaScript arrays are `List`s, objects are structures, absent (`undefined`)
  fields are `Option`s, and the JS truthiness idiom `x || d` on
  string-or-undefined values is `jsOrStr`.
* Timestamps and ISO date strings are opaque `String`/`Nat` parameters
  (`nowISO`, `nowMs`, …): the code only threads them through.
* The external model call is a parameter of type `Except GeminiError _`:
  its network behaviour is outside the program text.
-/

namespace Journal

/-- JournalMode enum from src/types.ts. -/
inductive JournalMode where
  | personal
  | professional
deriving DecidableEq, Repr

/-- Chat attachment from src/types.ts (`ChatMessage.attachment`). -/
structure Attachment where
  atype : String
  content : String
  mimeType : Option String
  aname : Option String
deriving DecidableEq, Repr

/-- ChatMessage from src/types.ts. -/
structure ChatMessage where
  id : String
  role : String
  text : String
  timestamp : Nat
  attachment : Option Attachment
deriving DecidableEq, Repr

/-- Media item collected onto a journal entry (src/App.tsx `collectedMedia`). -/
structure MediaItem where
  mtype : String
  content : String
  mimeType : String
deriving DecidableEq, Repr

/-- Task record from src/types.ts. -/
structure Task where
  id : String
  title : String
  completed : Bool
  dueDate : Option String
  linkedEntryId : Option String
deriving DecidableEq, Repr

/-- CalendarEvent record from src/types.ts. `startTime`/`endTime` are declared
`string` there, but the auto-sync materializer spreads an untyped candidate,
so a missing field survives; `Option` records that possibility. -/
structure CalendarEvent where
  id : String
  title : String
  startTime : Option String
  endTime : Option String
  description : Option String
  linkedEntryId : Option String
deriving DecidableEq, Repr

/-- FinanceTransaction record from src/types.ts; `txType` is `type` in the
source (income or expense). `category` is optional in the extraction schema. -/
structure FinanceTransaction where
  id : String
  amount : Int
  txType : String
  category : Option String
  description : String
  date : String
  linkedEntryId : Option String
deriving DecidableEq, Repr

/-- JournalEntry record from src/types.ts. -/
structure JournalEntry where
  id : String
  title : String
  content : String
  date : String
  mode : JournalMode
  tags : List String
  calendarEvents : List CalendarEvent
  tasks : List Task
  transactions : List FinanceTransaction
  media : List MediaItem
  lastModified : Nat
deriving DecidableEq, Repr

/-! ### storageService.ts -/

/-- Replace the first element satisfying `p` by `a` (JS
`list[list.findIndex(p)] = a`). -/
def replaceFirst (p : α → Bool) (a : α) : List α → List α
  | [] => []
  | x :: xs => if p x then a :: xs else x :: replaceFirst p a xs

/-- `saveEntry` from storageService.ts: replace the entry with the same id if
one exists, otherwise append. -/
def saveEntry (entries : List JournalEntry) (entry : JournalEntry) : List JournalEntry :=
  if entries.any (fun e => e.id == entry.id) then
    replaceFirst (fun e => e.id == entry.id) entry entries
  else
    entries ++ [entry]

/-- `deleteEntry` from storageService.ts. -/
def deleteEntry (entries : List JournalEntry) (id : String) : List JournalEntry :=
  entries.filter (fun e => e.id != id)

/-- One step of `saveTasks`: update the existing task with this id or append. -/
def saveTaskOne (updated : List Task) (t : Task) : List Task :=
  if updated.any (fun e => e.id == t.id) then
    replaceFirst (fun e => e.id == t.id) t updated
  else
    updated ++ [t]

/-- `saveTasks` from storageService.ts: fold the update-or-append step over
the incoming batch. -/
def saveTasks (current : List Task) (tasks : List Task) : List Task :=
  tasks.foldl saveTaskOne current

/-- `addCalendarEvents` from storageService.ts: append only those incoming
events whose id does not already occur in the stored list (an incoming
duplicate id is dropped; the stored record is kept, not replaced). -/
def addCalendarEvents (current : List CalendarEvent) (events : List CalendarEvent) :
    List CalendarEvent :=
  current ++ events.filter (fun e => !(current.any (fun c => c.id == e.id)))

/-- `addTransactions` from storageService.ts: unconditional append, with no
id check of any kind. -/
def addTransactions (current : List FinanceTransaction) (txs : List FinanceTransaction) :
    List FinanceTransaction :=
  current ++ txs

/-- The localStorage state read and written by storageService.ts. -/
structure Storage where
  entries : List JournalEntry
  calendar : List CalendarEvent
  tasks : List Task
  finance : List FinanceTransaction
  chatPersonal : List ChatMessage
  chatProf : List ChatMessage
  lastBackup : Nat
deriving DecidableEq, Repr

/-- The backup object: each collection field models `field present and is an
array` (restoreData's guard); `lastBackup` is restored only when truthy. -/
structure BackupData where
  entries : Option (List JournalEntry)
  calendar : Option (List CalendarEvent)
  tasks : Option (List Task)
  finance : Option (List FinanceTransaction)
  chatPersonal : Option (List ChatMessage)
  chatProf : Option (List ChatMessage)
  lastBackup : Option Nat
  timestamp : Nat
deriving DecidableEq, Repr

/-- `getAllData` from storageService.ts. -/
def getAllData (s : Storage) (now : Nat) : BackupData :=
  { entries := some s.entries
    calendar := some s.calendar
    tasks := some s.tasks
    finance := some s.finance
    chatPersonal := some s.chatPersonal
    chatProf := some s.chatProf
    lastBackup := some s.lastBackup
    timestamp := now }

/-- `restoreData` from storageService.ts: each collection is written back when
the field is present (and an array); `lastBackup` only when truthy (nonzero). -/
def restoreData (s : Storage) (d : BackupData) : Storage :=
  { entries := d.entries.getD s.entries
    calendar := d.calendar.getD s.calendar
    tasks := d.tasks.getD s.tasks
    finance := d.finance.getD s.finance
    chatPersonal := d.chatPersonal.getD s.chatPersonal
    chatProf := d.chatProf.getD s.chatProf
    lastBackup :=
      match d.lastBackup with
      | some n => if n = 0 then s.lastBackup else n
      | none => s.lastBackup }

/-! ### geminiService.ts -/

/-- An error thrown by the external model client. The source classifies it by
`error.status` and substring tests on `error.message`; the substring tests are
modelled as boolean fields (`msgHas429` stands for
`error.message?.includes('429')`, and so on). -/
structure GeminiError where
  status : Option Nat
  msgHas429 : Bool
  msgHasQuota : Bool
  msgHas503 : Bool
  msgHas500 : Bool
  msgHasInternal : Bool
  msgHas404 : Bool
  msgHasNotFound : Bool
deriving DecidableEq, Repr

/-- `isRateLimit` test inside `runWithRetry` (HTTP 429 / quota). -/
def isRateLimit (e : GeminiError) : Bool :=
  e.status == some 429 || e.msgHas429 || e.msgHasQuota

/-- `isServerIssue` test inside `runWithRetry` (HTTP 503/500 / internal error). -/
def isServerIssue (e : GeminiError) : Bool :=
  e.status == some 503 || e.status == some 500 || e.msgHas503 || e.msgHas500 || e.msgHasInternal

/-- `isNotFound` test inside `runWithRetry` (HTTP 404 / model not found). -/
def isNotFoundErr (e : GeminiError) : Bool :=
  e.status == some 404 || e.msgHas404 || e.msgHasNotFound

/-- Result of `runWithRetry`: either the thrown API error or the synthetic
`Max retries exceeded` error raised after the loop. -/
inductive RunError where
  | api (e : GeminiError)
  | maxRetriesExceeded
deriving DecidableEq, Repr

/-- The `for` loop of `runWithRetry` in geminiService.ts. `op i` is the
outcome of the `i`-th invocation of the wrapped operation; `fuel` counts the
remaining loop iterations (initially `retries`, so the loop guard `i < retries`
is `fuel > 0`). Returns the outcome, the number of attempts actually made, and
the list of backoff delays (ms) taken between attempts. The backoff is
`(isRateLimit ? 3000 : 2000) * 2 ^ i` and a NotFound-class error is rethrown
without retrying; other terminal errors are rethrown after the last attempt. -/
def runLoop (op : Nat → Except GeminiError α) (retries : Nat) (i : Nat) :
    Nat → Except RunError α × Nat × List Nat
  | 0 => (.error .maxRetriesExceeded, i, [])
  | fuel + 1 =>
    match op i with
    | .ok a => (.ok a, i + 1, [])
    | .error e =>
      if isNotFoundErr e then
        (.error (.api e), i + 1, [])
      else if (isRateLimit e || isServerIssue e) && decide (i < retries - 1) then
        let w := (if isRateLimit e then 3000 else 2000) * 2 ^ i
        let r := runLoop op retries (i + 1) fuel
        (r.1, r.2.1, w :: r.2.2)
      else
        (.error (.api e), i + 1, [])

/-- `runWithRetry` from geminiService.ts (the call sites use the default
`retries = 3`). -/
def runWithRetry (op : Nat → Except GeminiError α) (retries : Nat) :
    Except RunError α × Nat × List Nat :=
  runLoop op retries 0 retries

/-- Candidate task in the extraction response schema (`title` required,
`dueDate` optional). -/
structure TaskCandidate where
  title : String
  dueDate : Option String
deriving DecidableEq, Repr

/-- Candidate calendar event in the extraction response schema. The schema
declares `startTime`/`endTime` required, but the materializer never checks
them, so the embedding keeps them optional. -/
structure EventCandidate where
  title : String
  startTime : Option String
  endTime : Option String
  description : Option String
deriving DecidableEq, Repr

/-- Candidate transaction in the extraction response schema (`date` and
`category` optional). -/
structure TxCandidate where
  description : String
  amount : Int
  txType : String
  category : Option String
  date : Option String
deriving DecidableEq, Repr

/-- Parsed extraction response (`generatedData` in handleAutoSync). Every
field may be absent from the JSON; an absent array behaves as `[]` in all the
consuming code (`xs?.length > 0`), so arrays are plain lists. -/
structure ExtractionResult where
  hasContent : Option Bool
  title : Option String
  content : Option String
  tags : Option (List String)
  calendarEvents : List EventCandidate
  tasks : List TaskCandidate
  transactions : List TxCandidate
deriving DecidableEq, Repr

/-- The empty object `{}` returned by `generateEntryFromChat` when the API key
is missing or every attempt failed. -/
def emptyExtraction : ExtractionResult :=
  { hasContent := none, title := none, content := none, tags := none
    calendarEvents := [], tasks := [], transactions := [] }

/-- `generateEntryFromChat` from geminiService.ts, abstracted over the two
model calls: `primary` (resp. `fallback`) is the outcome of the
retry-wrapped generate-then-parse pipeline on the primary (resp. fallback)
model — an `.error` covers both an exhausted `runWithRetry` and a JSON parse
failure, either of which sends control to the enclosing catch. The function
never throws: with no key it returns `{}`; a primary failure falls back; a
fallback failure returns `{}`. -/
def generateEntryFromChat (hasKey : Bool)
    (primary fallback : Except GeminiError ExtractionResult) : ExtractionResult :=
  if !hasKey then emptyExtraction
  else
    match primary with
    | .ok r => r
    | .error _ =>
      match fallback with
      | .ok r => r
      | .error _ => emptyExtraction

/-! ### App.tsx — auto-sync consolidation -/

/-- Decimal digit list of a natural number, most significant first: the
rendering used by the template literals forming derived ids. -/
def natDigits (n : Nat) : List Char :=
  if _h : n < 10 then [Nat.digitChar n]
  else natDigits (n / 10) ++ [Nat.digitChar (n % 10)]
termination_by n
decreasing_by exact Nat.div_lt_self (by omega) (by omega)

/-- Decimal rendering of a natural number (JS number-to-string inside a
template literal, for non-negative integers). -/
def natToString (n : Nat) : String :=
  String.mk (natDigits n)

/-- JS `x || dflt` for a string-or-undefined `x` (both `undefined` and the
empty string select the default). -/
def jsOrStr (o : Option String) (dflt : String) : String :=
  match o with
  | some s => if s = "" then dflt else s
  | none => dflt

/-- JS truthiness of a string-or-undefined value. -/
def strTruthy : Option String → Bool
  | none => false
  | some s => s != ""

/-- Case-insensitive literal prefix match on character lists; returns the
remainder after the prefix. -/
def ciPrefixDrop : List Char → List Char → Option (List Char)
  | [], cs => some cs
  | _ :: _, [] => none
  | p :: ps, c :: cs => if c.toLower = p.toLower then ciPrefixDrop ps cs else none

/-- Scan to the first `]` (the non-greedy `.*?\]`); `.` does not cross line
breaks, so a newline before the `]` means no match. Returns the remainder
after the `]`. -/
def findCloseBracket : List Char → Option (List Char)
  | [] => none
  | c :: cs =>
    if c = ']' then some cs
    else if c = '\n' ∨ c = '\r' then none
    else findCloseBracket cs

/-- Given the characters following a `[`, try to match the rest of the
pattern `Attachment:.*?\]` case-insensitively; returns the remainder after
the closing bracket. -/
def tryAttachmentTag (cs : List Char) : Option (List Char) :=
  match ciPrefixDrop "Attachment:".data cs with
  | some rest => findCloseBracket rest
  | none => none

/-- Fueled scanner for `text.replace(/\[Attachment:.*?\]/gi, '')`: at each
position, if a full tag matches, drop it and continue after it; otherwise
emit the character. One unit of fuel per emitted-or-dropped span, so fuel
equal to the length of the input is always sufficient. -/
def stripGo : Nat → List Char → List Char
  | 0, cs => cs
  | _ + 1, [] => []
  | fuel + 1, c :: rest =>
    if c = '[' then
      match tryAttachmentTag rest with
      | some rest' => stripGo fuel rest'
      | none => c :: stripGo fuel rest
    else
      c :: stripGo fuel rest

/-- `text.replace(/\[Attachment:.*?\]/gi, '')` from handleAutoSync. -/
def stripAttachmentTags (s : String) : String :=
  String.mk (stripGo s.data.length s.data)

/-- `rawUserText` from handleAutoSync: user-authored lines with attachment
tags stripped and blank lines removed, joined by newlines. -/
def rawUserTextOf (newInput : List ChatMessage) : String :=
  String.intercalate "\n"
    (((newInput.filter (fun m => m.role == "user")).map
        (fun m => (stripAttachmentTags m.text).trim)).filter
      (fun t => !t.isEmpty))

/-- `collectedMedia` from handleAutoSync: the image attachments of the
new-input messages, with the mime type defaulted. -/
def collectMedia (newInput : List ChatMessage) : List MediaItem :=
  newInput.filterMap (fun msg =>
    match msg.attachment with
    | some a =>
      if a.atype == "image" then
        some { mtype := "image", content := a.content
               mimeType := jsOrStr a.mimeType "image/jpeg" }
      else none
    | none => none)

/-- `shouldCreateEntry = generatedData.hasContent === true ||
collectedMedia.length > 0` from handleAutoSync. -/
def shouldCreateEntryOf (r : ExtractionResult) (media : List MediaItem) : Bool :=
  (r.hasContent == some true) || (media.length != 0)

/-- Title fallback line: first line of the raw user text, truncated to 50
characters with an ellipsis when longer. -/
def firstLineTruncated (raw : String) : String :=
  let firstLine := (raw.splitOn "\n").headD ""
  if 50 < firstLine.length then firstLine.take 50 ++ "..." else firstLine

/-- `finalTitle` derivation from handleAutoSync: model title when non-blank,
else user text's first line, else a media caption, else a timestamped label. -/
def finalTitleOf (r : ExtractionResult) (rawUserText : String) (media : List MediaItem)
    (nowTimeStr : String) : String :=
  let fallback :=
    if rawUserText != "" then firstLineTruncated rawUserText
    else if media.length != 0 then "Photo Memory"
    else "Log: " ++ nowTimeStr
  match r.title with
  | some t => if t.trim = "" then fallback else t
  | none => fallback

/-- `finalContent` derivation from handleAutoSync: model content when
non-blank, else the raw user text when any, else left as it came (possibly
absent or blank). -/
def finalContentOf (r : ExtractionResult) (rawUserText : String) : Option String :=
  match r.content with
  | some c => if c.trim = "" then (if rawUserText != "" then some rawUserText else some c) else some c
  | none => if rawUserText != "" then some rawUserText else none

/-- `list.map((x, i) => f i x)` with the running index made explicit. -/
def mapWithIndex (f : Nat → α → β) : Nat → List α → List β
  | _, [] => []
  | i, c :: cs => f i c :: mapWithIndex f (i + 1) cs

/-- Step 1 of materialization in handleAutoSync: calendar-event candidates
become records with id `entryId-evt-i` and `linkedEntryId` set from
`shouldCreateEntry`; no field of the candidate is checked or defaulted. -/
def materializeEvents (entryId : String) (shouldCreate : Bool)
    (cs : List EventCandidate) : List CalendarEvent :=
  mapWithIndex (fun i c =>
    { id := entryId ++ "-evt-" ++ natToString i
      title := c.title, startTime := c.startTime, endTime := c.endTime
      description := c.description
      linkedEntryId := if shouldCreate then some entryId else none }) 0 cs

/-- Step 2 of materialization in handleAutoSync: task candidates become
records with id `entryId-task-i`, `completed := false`, `linkedEntryId` from
`shouldCreateEntry`, and `dueDate` defaulted to now when absent. -/
def materializeTasks (entryId : String) (shouldCreate : Bool) (nowISO : String)
    (cs : List TaskCandidate) : List Task :=
  mapWithIndex (fun i c =>
    { id := entryId ++ "-task-" ++ natToString i
      title := c.title, completed := false
      linkedEntryId := if shouldCreate then some entryId else none
      dueDate := some (jsOrStr c.dueDate nowISO) }) 0 cs

/-- Step 3 of materialization in handleAutoSync: transaction candidates
become records with id `entryId-tx-i`, `linkedEntryId` from
`shouldCreateEntry`, and `date` defaulted to now when absent. -/
def materializeTxs (entryId : String) (shouldCreate : Bool) (nowISO : String)
    (cs : List TxCandidate) : List FinanceTransaction :=
  mapWithIndex (fun i c =>
    { id := entryId ++ "-tx-" ++ natToString i
      description := c.description, amount := c.amount, txType := c.txType
      category := c.category
      linkedEntryId := if shouldCreate then some entryId else none
      date := jsOrStr c.date nowISO }) 0 cs

/-- The cursor-and-slice computation at the head of handleAutoSync:
`context = slice(0, processedCount)`, `newInput = slice(processedCount)`, and
the cursor is advanced to the stream length before the extraction call. -/
structure SyncResult where
  context : List ChatMessage
  newInput : List ChatMessage
  processed : Nat
deriving DecidableEq, Repr

/-- Lines 119-133 of src/App.tsx: the early return when no new messages
exist, otherwise the slice split and the immediate cursor advance. -/
def handleAutoSyncSlice (messages : List ChatMessage) (processedCount : Nat) :
    Option SyncResult :=
  if messages.length ≤ processedCount then none
  else some { context := messages.take processedCount
              newInput := messages.drop processedCount
              processed := messages.length }

/-- The persisted collections that handleAutoSync reads and writes. -/
structure AppState where
  entries : List JournalEntry
  calendar : List CalendarEvent
  tasks : List Task
  finance : List FinanceTransaction
deriving DecidableEq, Repr

/-- `handleAutoSync` from src/App.tsx as a state transformer. `extraction` is
the outcome of the awaited `generateEntryFromChat(newInput, context)` call
(an `.error` models any error propagating out of it, which the enclosing
`try/catch` swallows). `entryId` is `Date.now().toString()`, `nowISO`,
`nowMs`, `nowTimeStr` the other time snapshots taken inside the function.
Returns the updated collections and the new cursor value. -/
def handleAutoSync (st : AppState) (messages : List ChatMessage) (processedCount : Nat)
    (extraction : Except GeminiError ExtractionResult)
    (entryId nowISO : String) (nowMs : Nat) (nowTimeStr : String) : AppState × Nat :=
  match handleAutoSyncSlice messages processedCount with
  | none => (st, processedCount)
  | some slice =>
    let newInput := slice.newInput
    let collectedMedia := collectMedia newInput
    match extraction with
    | .error _ => (st, slice.processed)
    | .ok generatedData =>
      let rawUserText := rawUserTextOf newInput
      let shouldCreateEntry := shouldCreateEntryOf generatedData collectedMedia
      let newEvents :=
        if generatedData.calendarEvents.length != 0 then
          materializeEvents entryId shouldCreateEntry generatedData.calendarEvents
        else []
      let calendar' :=
        if generatedData.calendarEvents.length != 0 then
          addCalendarEvents st.calendar newEvents
        else st.calendar
      let newTasks :=
        if generatedData.tasks.length != 0 then
          materializeTasks entryId shouldCreateEntry nowISO generatedData.tasks
        else []
      let tasks' :=
        if generatedData.tasks.length != 0 then saveTasks st.tasks newTasks else st.tasks
      let newTxs :=
        if generatedData.transactions.length != 0 then
          materializeTxs entryId shouldCreateEntry nowISO generatedData.transactions
        else []
      let finance' :=
        if generatedData.transactions.length != 0 then
          addTransactions st.finance newTxs
        else st.finance
      let entries' :=
        if shouldCreateEntry then
          let finalTitle := finalTitleOf generatedData rawUserText collectedMedia nowTimeStr
          let finalContent := finalContentOf generatedData rawUserText
          if strTruthy finalContent || collectedMedia.length != 0 then
            saveEntry st.entries
              { id := entryId, title := finalTitle
                content := finalContent.getD ""
                date := nowISO, mode := JournalMode.personal
                tags := generatedData.tags.getD []
                media := collectedMedia, tasks := newTasks
                calendarEvents := newEvents, transactions := newTxs
                lastModified := nowMs }
          else st.entries
        else st.entries
      ({ entries := entries', calendar := calendar', tasks := tasks', finance := finance' },
       slice.processed)

/-- The cursor value after one run of handleAutoSync (advanced to the stream
length unless the pending slice is empty). -/
def flushCursor (messages : List ChatMessage) (p : Nat) : Nat :=
  if messages.length ≤ p then p else messages.length

/-- An event on one conversation stream: a message append (the stream is
append-only) or a consolidation flush. -/
inductive StreamEvent where
  | append (m : ChatMessage)
  | flush
deriving Repr

/-- Stream-plus-cursor evolution: appends extend the stream, a flush moves
the cursor as handleAutoSync does. -/
def stepState : List ChatMessage × Nat → StreamEvent → List ChatMessage × Nat
  | (msgs, p), .append m => (msgs ++ [m], p)
  | (msgs, p), .flush => (msgs, flushCursor msgs p)

/-! ### CalendarWidget (src/unnamed/part_000) — direct event creation -/

/-- Repeat mode of the new-event form (`'none' | 'daily' | 'weekly' |
'monthly'`). -/
inductive RepeatMode where
  | norepeat
  | daily
  | weekly
  | monthly
deriving DecidableEq, Repr

/-- The occurrence count chosen in handleSaveEvent (1 / 30 / 12 / 6). -/
def recurrenceCount : RepeatMode → Nat
  | .norepeat => 1
  | .daily => 30
  | .weekly => 12
  | .monthly => 6

/-- The date of the i-th instance. Dates are day numbers (JS `Date` holds a
linear timestamp and `setDate(getDate() + k)` normalizes day overflow, so it
adds exactly `k` days); `monthAdd` abstracts `setMonth(getMonth() + i)`,
whose calendar arithmetic no claim constrains. -/
def instanceDay (rm : RepeatMode) (monthAdd : Int → Nat → Int) (base : Int) (i : Nat) : Int :=
  match rm with
  | .norepeat => base
  | .daily => base + i
  | .weekly => base + 7 * i
  | .monthly => monthAdd base i

/-- A calendar event created by the widget. The ISO timestamps built as
`date + "T" + timeOfDay + ":00"` are modelled as a (day number, time-of-day
string) pair. -/
structure WidgetEvent where
  id : String
  title : String
  description : String
  startDay : Int
  startTod : String
  endDay : Int
  endTod : String
deriving DecidableEq, Repr

/-- The task mirrored from a widget-created event. -/
structure WidgetTask where
  id : String
  title : String
  completed : Bool
  dueDay : Int
  dueTod : String
  linkedEntryId : Option String
deriving DecidableEq, Repr

/-- `handleSaveEvent` from the calendar widget. `gen i` models the id
generator `Date.now().toString() + Math.random().toString(36).substr(2, 9)`
at the i-th loop iteration; `base` is the parsed form date as a day number
(the empty-date validation lives in the string parse, outside this model).
Returns `none` on the required-field validation failure, otherwise the
created events and their mirrored tasks (which the source then persists via
`addCalendarEvents` and `saveTasks`). -/
def handleSaveEvent (gen : Nat → String) (rm : RepeatMode) (monthAdd : Int → Nat → Int)
    (base : Int) (title descr startT endT : String) :
    Option (List WidgetEvent × List WidgetTask) :=
  if title = "" ∨ startT = "" ∨ endT = "" then none
  else
    let eventsToCreate := (List.range (recurrenceCount rm)).map (fun i =>
      let d := instanceDay rm monthAdd base i
      { id := gen i, title := title, description := descr
        startDay := d, startTod := startT, endDay := d, endTod := endT : WidgetEvent })
    let tasksToCreate := eventsToCreate.map (fun evt =>
      { id := "task-mirror-" ++ evt.id, title := evt.title, completed := false
        dueDay := evt.startDay, dueTod := evt.startTod
        linkedEntryId := some evt.id : WidgetTask })
    some (eventsToCreate, tasksToCreate)

/-! ### Helper lemmas -/

theorem natDigits_lt {n : Nat} (h : n < 10) : natDigits n = [Nat.digitChar n] := by
  rw [natDigits]
  exact dif_pos h

theorem natDigits_ge {n : Nat} (h : ¬n < 10) :
    natDigits n = natDigits (n / 10) ++ [Nat.digitChar (n % 10)] := by
  rw [natDigits]
  exact dif_neg h

theorem natDigits_ne_nil (n : Nat) : natDigits n ≠ [] := by
  by_cases h : n < 10
  · rw [natDigits_lt h]
    simp
  · rw [natDigits_ge h]
    simp

theorem digitChar_inj_lt : ∀ x < 10, ∀ y < 10, Nat.digitChar x = Nat.digitChar y → x = y := by
  decide

theorem natDigits_injective : ∀ a b : Nat, natDigits a = natDigits b → a = b := by
  intro a
  induction a using Nat.strong_induction_on with
  | _ a ih =>
    intro b h
    by_cases ha : a < 10 <;> by_cases hb : b < 10
    · rw [natDigits_lt ha, natDigits_lt hb] at h
      simp only [List.cons.injEq, and_true] at h
      exact digitChar_inj_lt a ha b hb h
    · rw [natDigits_lt ha, natDigits_ge hb] at h
      exfalso
      cases hd : natDigits (b / 10) with
      | nil => exact natDigits_ne_nil _ hd
      | cons c cs =>
        rw [hd] at h
        have := congrArg List.length h
        simp at this
    · rw [natDigits_ge ha, natDigits_lt hb] at h
      exfalso
      cases hd : natDigits (a / 10) with
      | nil => exact natDigits_ne_nil _ hd
      | cons c cs =>
        rw [hd] at h
        have := congrArg List.length h
        simp at this
    · rw [natDigits_ge ha, natDigits_ge hb] at h
      have h2 := List.append_inj' h (by simp)
      simp only [List.cons.injEq, and_true] at h2
      have hdiv : a / 10 = b / 10 :=
        ih (a / 10) (Nat.div_lt_self (by omega) (by omega)) _ h2.1
      have hmod : a % 10 = b % 10 :=
        digitChar_inj_lt _ (Nat.mod_lt _ (by omega)) _ (Nat.mod_lt _ (by omega)) h2.2
      omega

theorem natToString_injective : ∀ a b : Nat, natToString a = natToString b → a = b := by
  intro a b h
  exact natDigits_injective a b (congrArg String.data h)

theorem natToString_zero : natToString 0 = "0" := by
  rw [natToString, natDigits_lt (by omega)]
  rfl

/-- Cancel a common string prefix built by `++`. -/
theorem string_append_left_cancel {p s t : String} (h : p ++ s = p ++ t) : s = t := by
  apply String.ext
  have hd := congrArg String.data h
  rw [String.data_append, String.data_append] at hd
  exact List.append_cancel_left hd

theorem replaceFirst_of_all_false (p : α → Bool) (a : α) :
    ∀ l1 l2, (∀ x ∈ l1, p x = false) →
      replaceFirst p a (l1 ++ l2) = l1 ++ replaceFirst p a l2 := by
  intro l1
  induction l1 with
  | nil => intro l2 _; rfl
  | cons x xs ih =>
    intro l2 h
    have hx : p x = false := h x (by simp)
    simp only [List.cons_append, replaceFirst, hx]
    simp only [Bool.false_eq_true, if_false]
    congr 1
    exact ih l2 (fun y hy => h y (by simp [hy]))

theorem any_id_eq_false {l : List JournalEntry} {i : String}
    (h : ∀ x ∈ l, x.id ≠ i) : l.any (fun e => e.id == i) = false := by
  simp only [List.any_eq_false, beq_iff_eq]
  exact h

theorem saveEntry_fresh (es : List JournalEntry) (e : JournalEntry)
    (h : ∀ x ∈ es, x.id ≠ e.id) : saveEntry es e = es ++ [e] := by
  rw [saveEntry, any_id_eq_false h]
  simp

theorem saveEntry_replace (l1 l2 : List JournalEntry) (e e' : JournalEntry)
    (hid : e'.id = e.id) (h : ∀ x ∈ l1, x.id ≠ e.id) :
    saveEntry (l1 ++ e' :: l2) e = l1 ++ e :: l2 := by
  rw [saveEntry, if_pos]
  · rw [replaceFirst_of_all_false _ _ l1 (e' :: l2)
      (fun x hx => by simp [beq_iff_eq]; exact h x hx)]
    simp [replaceFirst, hid]
  · simp only [List.any_eq_true, beq_iff_eq]
    exact ⟨e', by simp, hid⟩

theorem saveTaskOne_fresh (cur : List Task) (t : Task)
    (h : ∀ x ∈ cur, x.id ≠ t.id) : saveTaskOne cur t = cur ++ [t] := by
  rw [saveTaskOne, if_neg]
  simp only [List.any_eq_true, beq_iff_eq, not_exists]
  intro x
  rintro ⟨hx, hxid⟩
  exact h x hx hxid

theorem saveTasks_fresh_append :
    ∀ (batch cur : List Task), (∀ x ∈ cur, ∀ t ∈ batch, x.id ≠ t.id) →
      batch.Pairwise (fun a b => a.id ≠ b.id) →
      saveTasks cur batch = cur ++ batch := by
  intro batch
  induction batch with
  | nil => intro cur _ _; simp [saveTasks]
  | cons t ts ih =>
    intro cur hdisj hpw
    have h1 : saveTaskOne cur t = cur ++ [t] :=
      saveTaskOne_fresh cur t (fun x hx => hdisj x hx t (by simp))
    have h2 : saveTasks cur (t :: ts) = saveTasks (saveTaskOne cur t) ts := rfl
    rw [h2, h1, ih (cur ++ [t])]
    · simp
    · intro x hx t' ht'
      rcases List.mem_append.mp hx with hx' | hx'
      · exact hdisj x hx' t' (by simp [ht'])
      · have : x = t := by simpa using hx'
        subst this
        exact (List.pairwise_cons.mp hpw).1 t' ht'
    · exact (List.pairwise_cons.mp hpw).2

theorem saveTasks_replace (l1 l2 : List Task) (t t' : Task)
    (hid : t'.id = t.id) (h : ∀ x ∈ l1, x.id ≠ t.id) :
    saveTasks (l1 ++ t' :: l2) [t] = l1 ++ t :: l2 := by
  have h2 : saveTasks (l1 ++ t' :: l2) [t] = saveTaskOne (l1 ++ t' :: l2) t := rfl
  rw [h2, saveTaskOne, if_pos]
  · rw [replaceFirst_of_all_false _ _ l1 (t' :: l2)
      (fun x hx => by simp [beq_iff_eq]; exact h x hx)]
    simp [replaceFirst, hid]
  · simp only [List.any_eq_true, beq_iff_eq]
    exact ⟨t', by simp, hid⟩

theorem addCalendarEvents_dup_dropped (cur evs : List CalendarEvent)
    (h : ∀ ev ∈ evs, ∃ c ∈ cur, c.id = ev.id) :
    addCalendarEvents cur evs = cur := by
  rw [addCalendarEvents]
  have : evs.filter (fun e => !(cur.any (fun c => c.id == e.id))) = [] := by
    rw [List.filter_eq_nil_iff]
    intro ev hev
    rcases h ev hev with ⟨c, hc, hcid⟩
    simp only [Bool.not_eq_true', Bool.not_eq_false, List.any_eq_true, beq_iff_eq]
    exact ⟨c, hc, hcid⟩
  rw [this, List.append_nil]

theorem addCalendarEvents_fresh (cur evs : List CalendarEvent)
    (h : ∀ c ∈ cur, ∀ ev ∈ evs, c.id ≠ ev.id) :
    addCalendarEvents cur evs = cur ++ evs := by
  rw [addCalendarEvents]
  congr 1
  rw [List.filter_eq_self]
  intro ev hev
  simp only [Bool.not_eq_true', List.any_eq_false, beq_iff_eq]
  intro c hc
  exact h c hc ev hev

theorem addTransactions_countP (cur txs : List FinanceTransaction)
    (p : FinanceTransaction → Bool) :
    (addTransactions cur txs).countP p = cur.countP p + txs.countP p := by
  rw [addTransactions, List.countP_append]

theorem mapWithIndex_length (f : Nat → α → β) :
    ∀ (k : Nat) (cs : List α), (mapWithIndex f k cs).length = cs.length := by
  intro k cs
  induction cs generalizing k with
  | nil => rfl
  | cons c cs ih => simp [mapWithIndex, ih]

theorem mapWithIndex_get? (f : Nat → α → β) :
    ∀ (k : Nat) (cs : List α) (i : Nat),
      (mapWithIndex f k cs).get? i = (cs.get? i).map (f (k + i)) := by
  intro k cs
  induction cs generalizing k with
  | nil => intro i; simp [mapWithIndex]
  | cons c cs ih =>
    intro i
    cases i with
    | zero => simp [mapWithIndex]
    | succ j =>
      simp only [mapWithIndex, List.get?_cons_succ]
      rw [ih (k + 1) j]
      have hk : k + 1 + j = k + (j + 1) := by omega
      rw [hk]

theorem mem_mapWithIndex {f : Nat → α → β} :
    ∀ (k : Nat) (cs : List α) (b : β), b ∈ mapWithIndex f k cs →
      ∃ i a, k ≤ i ∧ b = f i a := by
  intro k cs
  induction cs generalizing k with
  | nil => intro b hb; simp [mapWithIndex] at hb
  | cons c cs ih =>
    intro b hb
    rcases List.mem_cons.mp hb with hb | hb
    · exact ⟨k, c, le_refl k, hb⟩
    · rcases ih (k + 1) b hb with ⟨i, a, hki, hba⟩
      exact ⟨i, a, by omega, hba⟩

theorem mapWithIndex_pairwise {f : Nat → α → β} {R : β → β → Prop}
    (hf : ∀ i j a b, i < j → R (f i a) (f j b)) :
    ∀ (k : Nat) (cs : List α), (mapWithIndex f k cs).Pairwise R := by
  intro k cs
  induction cs generalizing k with
  | nil => exact List.Pairwise.nil
  | cons c cs ih =>
    refine List.pairwise_cons.mpr ⟨?_, ih (k + 1)⟩
    intro b hb
    rcases mem_mapWithIndex (k + 1) cs b hb with ⟨i, a, hki, hba⟩
    rw [hba]
    exact hf k i c a (by omega)

/-- The generated id `B-task-i` determines the index `i`. -/
theorem taskId_index_inj (B tag : String) {i j : Nat}
    (h : B ++ tag ++ natToString i = B ++ tag ++ natToString j) : i = j := by
  exact natToString_injective i j (string_append_left_cancel h)

theorem materializeTasks_pairwise_ids (B : String) (sce : Bool) (nowISO : String)
    (cs : List TaskCandidate) :
    (materializeTasks B sce nowISO cs).Pairwise (fun a b => a.id ≠ b.id) := by
  apply mapWithIndex_pairwise
  intro i j a b hij
  simp only
  intro hid
  exact absurd (taskId_index_inj B "-task-" hid) (by omega)

/-! ### Claim C10 -/

/-- C10: the backup/restore pair round-trips — `restoreData` applied to the
object returned by `getAllData` leaves every persisted collection (journal
entries, calendar events, tasks, transactions, and both chat histories)
unchanged. -/
theorem C10_backupRoundTrip (s : Storage) (now : Nat) :
    (restoreData s (getAllData s now)).entries = s.entries ∧
    (restoreData s (getAllData s now)).calendar = s.calendar ∧
    (restoreData s (getAllData s now)).tasks = s.tasks ∧
    (restoreData s (getAllData s now)).finance = s.finance ∧
    (restoreData s (getAllData s now)).chatPersonal = s.chatPersonal ∧
    (restoreData s (getAllData s now)).chatProf = s.chatProf :=
  ⟨rfl, rfl, rfl, rfl, rfl, rfl⟩

/-! ### Claim C4 -/

/-- C4 counterexample: `addTransactions` does not merge by id — starting from
a collection holding one transaction with id `a`, putting another record with
id `a` appends it, leaving two records with the same id in the collection
(instead of replacing the existing one). -/
theorem C4_counterexample :
    (addTransactions
        [{ id := "a", amount := 5, txType := "expense", category := none,
           description := "one", date := "d1", linkedEntryId := none }]
        [{ id := "a", amount := 6, txType := "expense", category := none,
           description := "two", date := "d2", linkedEntryId := none }]).countP
      (fun t => t.id == "a") = 2 := by
  decide

/-- C4 amended: only `saveEntry` and `saveTasks` have merge-by-id semantics
(an existing id is replaced in place, a new id is appended);
`addCalendarEvents` never replaces — an incoming event whose id already
exists in the collection is discarded and the stored record kept, while
fresh-id events are appended; and `addTransactions` appends unconditionally,
so it can produce two records with the same id in one collection. -/
theorem C4_amendedThm :
    (∀ (es : List JournalEntry) (e : JournalEntry),
        (∀ x ∈ es, x.id ≠ e.id) → saveEntry es e = es ++ [e]) ∧
    (∀ (l1 l2 : List JournalEntry) (e e' : JournalEntry),
        e'.id = e.id → (∀ x ∈ l1, x.id ≠ e.id) →
        saveEntry (l1 ++ e' :: l2) e = l1 ++ e :: l2) ∧
    (∀ (cur batch : List Task),
        (∀ x ∈ cur, ∀ t ∈ batch, x.id ≠ t.id) →
        batch.Pairwise (fun a b => a.id ≠ b.id) →
        saveTasks cur batch = cur ++ batch) ∧
    (∀ (l1 l2 : List Task) (t t' : Task),
        t'.id = t.id → (∀ x ∈ l1, x.id ≠ t.id) →
        saveTasks (l1 ++ t' :: l2) [t] = l1 ++ t :: l2) ∧
    (∀ (cur evs : List CalendarEvent),
        (∀ ev ∈ evs, ∃ c ∈ cur, c.id = ev.id) → addCalendarEvents cur evs = cur) ∧
    (∀ (cur evs : List CalendarEvent),
        (∀ c ∈ cur, ∀ ev ∈ evs, c.id ≠ ev.id) → addCalendarEvents cur evs = cur ++ evs) ∧
    (∀ (cur txs : List FinanceTransaction) (p : FinanceTransaction → Bool),
        (addTransactions cur txs).countP p = cur.countP p + txs.countP p) :=
  ⟨saveEntry_fresh, saveEntry_replace,
   fun cur batch h1 h2 => saveTasks_fresh_append batch cur h1 h2,
   saveTasks_replace, addCalendarEvents_dup_dropped, addCalendarEvents_fresh,
   addTransactions_countP⟩

/-- C4 witness: the amended semantics at concrete inputs — a same-id entry
write replaces in place, and a same-id incoming calendar event is dropped
with the stored record kept. -/
theorem C4_amendedThm_witness :
    saveEntry
        [{ id := "x", title := "t1", content := "c1", date := "d",
           mode := JournalMode.personal, tags := [], calendarEvents := [],
           tasks := [], transactions := [], media := [], lastModified := 0 }]
        { id := "x", title := "t2", content := "c2", date := "d",
          mode := JournalMode.personal, tags := [], calendarEvents := [],
          tasks := [], transactions := [], media := [], lastModified := 1 }
      = [{ id := "x", title := "t2", content := "c2", date := "d",
           mode := JournalMode.personal, tags := [], calendarEvents := [],
           tasks := [], transactions := [], media := [], lastModified := 1 }] ∧
    addCalendarEvents
        [{ id := "e1", title := "old", startTime := some "s", endTime := some "t",
           description := none, linkedEntryId := none }]
        [{ id := "e1", title := "new", startTime := some "s2", endTime := some "t2",
           description := none, linkedEntryId := none }]
      = [{ id := "e1", title := "old", startTime := some "s", endTime := some "t",
           description := none, linkedEntryId := none }] :=
  ⟨C4_amendedThm.2.1 [] []
      { id := "x", title := "t2", content := "c2", date := "d",
        mode := JournalMode.personal, tags := [], calendarEvents := [],
        tasks := [], transactions := [], media := [], lastModified := 1 }
      { id := "x", title := "t1", content := "c1", date := "d",
        mode := JournalMode.personal, tags := [], calendarEvents := [],
        tasks := [], transactions := [], media := [], lastModified := 0 }
      rfl (by simp),
   C4_amendedThm.2.2.2.2.1
      [{ id := "e1", title := "old", startTime := some "s", endTime := some "t",
         description := none, linkedEntryId := none }]
      [{ id := "e1", title := "new", startTime := some "s2", endTime := some "t2",
         description := none, linkedEntryId := none }]
      (by decide)⟩

/-! ### Claim C6 -/

theorem runLoop_attempts_le {α : Type} (op : Nat → Except GeminiError α) (retries : Nat) :
    ∀ (fuel i : Nat), i + fuel ≤ retries → (runLoop op retries i fuel).2.1 ≤ retries := by
  intro fuel
  induction fuel with
  | zero =>
    intro i h
    simp only [runLoop]
    omega
  | succ n ih =>
    intro i h
    simp only [runLoop]
    cases hop : op i with
    | ok a => dsimp only; omega
    | error e =>
      dsimp only
      split
      · dsimp only; omega
      · split
        · dsimp only
          exact ih (i + 1) (by omega)
        · dsimp only; omega

/-- C6: `runWithRetry` makes at most 3 attempts; a call failing with a
ServerOverload-class error twice and succeeding on the third is attempted
exactly 3 times with backoff delays 2000 ms then 4000 ms (the delay before
the third attempt doubling the delay before the second); a RateLimited-class
error waits from a distinct base delay of 3000 ms; and a NotFound-class
error is rethrown immediately after a single attempt, with no retry. -/
theorem C6_retryPolicy :
    (∀ (α : Type) (op : Nat → Except GeminiError α) (e : GeminiError) (a : α),
        isServerIssue e = true → isRateLimit e = false → isNotFoundErr e = false →
        op 0 = .error e → op 1 = .error e → op 2 = .ok a →
        runWithRetry op 3 = (.ok a, 3, [2000, 4000]) ∧ 4000 = 2 * 2000) ∧
    (∀ (α : Type) (op : Nat → Except GeminiError α) (retries : Nat),
        (runWithRetry op retries).2.1 ≤ retries) ∧
    (∀ (α : Type) (op : Nat → Except GeminiError α) (e : GeminiError),
        isNotFoundErr e = true → op 0 = .error e →
        runWithRetry op 3 = (.error (.api e), 1, [])) ∧
    (∀ (α : Type) (op : Nat → Except GeminiError α) (e : GeminiError) (a : α),
        isRateLimit e = true → isNotFoundErr e = false →
        op 0 = .error e → op 1 = .ok a →
        runWithRetry op 3 = (.ok a, 2, [3000])) ∧
    (3000 : Nat) ≠ 2000 := by
  refine ⟨?_, ?_, ?_, ?_, by omega⟩
  · intro α op e a hs hr hn h0 h1 h2
    refine ⟨?_, by omega⟩
    simp [runWithRetry, runLoop, h0, h1, h2, hs, hr, hn]
  · intro α op retries
    exact runLoop_attempts_le op retries retries 0 (by omega)
  · intro α op e hn h0
    simp [runWithRetry, runLoop, h0, hn]
  · intro α op e a hr hn h0 h1
    simp [runWithRetry, runLoop, h0, h1, hr, hn]

/-- C6 witness: the retry policy evaluated on a mocked operation that fails
with a 503 ServerOverload error twice and succeeds on the third attempt. -/
theorem C6_retryPolicy_witness :
    runWithRetry
        (fun i => if i < 2
          then .error { status := some 503, msgHas429 := false, msgHasQuota := false,
                        msgHas503 := false, msgHas500 := false, msgHasInternal := false,
                        msgHas404 := false, msgHasNotFound := false }
          else .ok (42 : Nat)) 3
      = (.ok 42, 3, [2000, 4000]) :=
  (C6_retryPolicy.1 Nat
    (fun i => if i < 2
      then .error { status := some 503, msgHas429 := false, msgHasQuota := false,
                    msgHas503 := false, msgHas500 := false, msgHasInternal := false,
                    msgHas404 := false, msgHasNotFound := false }
      else .ok (42 : Nat))
    { status := some 503, msgHas429 := false, msgHasQuota := false,
      msgHas503 := false, msgHas500 := false, msgHasInternal := false,
      msgHas404 := false, msgHasNotFound := false }
    42 rfl rfl rfl rfl rfl rfl).1

/-! ### Claims C5 and C1 -/

theorem handleAutoSyncSlice_pos (messages : List ChatMessage) (p : Nat)
    (h : p < messages.length) :
    handleAutoSyncSlice messages p =
      some { context := messages.take p, newInput := messages.drop p,
             processed := messages.length } := by
  rw [handleAutoSyncSlice, if_neg (by omega)]

theorem handleAutoSyncSlice_neg (messages : List ChatMessage) (p : Nat)
    (h : messages.length ≤ p) :
    handleAutoSyncSlice messages p = none := by
  rw [handleAutoSyncSlice, if_pos h]

/-- C5: extraction failure is contained — `generateEntryFromChat` returns the
empty object `{}` when the primary and fallback pipelines both fail (or the
key is missing), `handleAutoSync` swallows a propagated extraction error and
leaves every collection unchanged, and the cursor stays at the advanced value
(the stream length) for every extraction outcome, never rolled back. -/
theorem C5_failureContainment :
    (∀ (e1 e2 : GeminiError) (hasKey : Bool),
        generateEntryFromChat hasKey (.error e1) (.error e2) = emptyExtraction) ∧
    (∀ (st : AppState) (messages : List ChatMessage) (p : Nat) (e : GeminiError)
        (entryId nowISO : String) (nowMs : Nat) (nowTimeStr : String),
        p < messages.length →
        handleAutoSync st messages p (.error e) entryId nowISO nowMs nowTimeStr
          = (st, messages.length)) ∧
    (∀ (st : AppState) (messages : List ChatMessage) (p : Nat)
        (outcome : Except GeminiError ExtractionResult)
        (entryId nowISO : String) (nowMs : Nat) (nowTimeStr : String),
        p < messages.length →
        (handleAutoSync st messages p outcome entryId nowISO nowMs nowTimeStr).2
          = messages.length) := by
  refine ⟨?_, ?_, ?_⟩
  · intro e1 e2 hasKey
    cases hasKey <;> rfl
  · intro st messages p e entryId nowISO nowMs nowTimeStr hp
    rw [handleAutoSync, handleAutoSyncSlice_pos messages p hp]
  · intro st messages p outcome entryId nowISO nowMs nowTimeStr hp
    cases outcome with
    | error e => rw [handleAutoSync, handleAutoSyncSlice_pos messages p hp]
    | ok r =>
      rw [handleAutoSync, handleAutoSyncSlice_pos messages p hp]

/-- C5 witness: a propagated extraction error on a one-message stream leaves
the collections untouched and the cursor advanced to the stream length. -/
theorem C5_failureContainment_witness :
    handleAutoSync { entries := [], calendar := [], tasks := [], finance := [] }
        [{ id := "m1", role := "user", text := "hello", timestamp := 0, attachment := none }]
        0
        (.error { status := some 503, msgHas429 := false, msgHasQuota := false,
                  msgHas503 := false, msgHas500 := false, msgHasInternal := false,
                  msgHas404 := false, msgHasNotFound := false })
        "B" "NOW" 7 "ts"
      = ({ entries := [], calendar := [], tasks := [], finance := [] }, 1) :=
  C5_failureContainment.2.1
    { entries := [], calendar := [], tasks := [], finance := [] }
    [{ id := "m1", role := "user", text := "hello", timestamp := 0, attachment := none }]
    0
    { status := some 503, msgHas429 := false, msgHasQuota := false,
      msgHas503 := false, msgHas500 := false, msgHasInternal := false,
      msgHas404 := false, msgHasNotFound := false }
    "B" "NOW" 7 "ts" (by decide)

/-- C1: across two consecutive flushes on an append-only stream — the first
on the prefix `s1` at cursor `c`, the second on the extended stream
`s1 ++ t` at the advanced cursor — the second flush's new input is exactly
the messages at positions `[s1.length, (s1 ++ t).length)`: it has one entry
per appended message, its i-th entry is the stream's `(s1.length + i)`-th
message, the two flushes' new inputs concatenate to the whole stream after
position `c` (no overlap, no gap), and the cursor ends at the stream
length. -/
theorem C1_noDoubleProcessing (s1 t : List ChatMessage) (c : Nat) (r1 r2 : SyncResult)
    (h1 : handleAutoSyncSlice s1 c = some r1)
    (h2 : handleAutoSyncSlice (s1 ++ t) r1.processed = some r2) :
    r2.processed = (s1 ++ t).length ∧
    r2.newInput.length = (s1 ++ t).length - s1.length ∧
    (∀ i, r2.newInput.get? i = (s1 ++ t).get? (s1.length + i)) ∧
    r1.newInput ++ r2.newInput = (s1 ++ t).drop c := by
  have hc : c < s1.length := by
    by_contra hc
    rw [handleAutoSyncSlice_neg s1 c (by omega)] at h1
    exact Option.noConfusion h1
  rw [handleAutoSyncSlice_pos s1 c hc] at h1
  have hr1 : r1 = { context := s1.take c, newInput := s1.drop c, processed := s1.length } :=
    (Option.some.injEq _ _).mp h1.symm
  rw [hr1] at h2
  have hlen : s1.length < (s1 ++ t).length := by
    by_contra hlen
    rw [handleAutoSyncSlice_neg (s1 ++ t) s1.length (by omega)] at h2
    exact Option.noConfusion h2
  rw [handleAutoSyncSlice_pos (s1 ++ t) s1.length hlen] at h2
  have hr2 : r2 = { context := (s1 ++ t).take s1.length,
                    newInput := (s1 ++ t).drop s1.length,
                    processed := (s1 ++ t).length } :=
    (Option.some.injEq _ _).mp h2.symm
  subst hr1 hr2
  refine ⟨rfl, ?_, ?_, ?_⟩
  · simp
  · intro i
    exact List.get?_drop (s1 ++ t) s1.length i
  · simp only
    rw [List.drop_left, List.drop_append_of_le_length (by omega : c ≤ s1.length)]

/-- C1 witness: two consecutive flushes on the concrete streams `[mA]` then
`[mA, mB]`, starting at cursor 0. -/
theorem C1_noDoubleProcessing_witness :
    ({ context := [{ id := "1", role := "user", text := "a", timestamp := 0,
                     attachment := none }],
       newInput := [{ id := "2", role := "user", text := "b", timestamp := 1,
                      attachment := none }],
       processed := 2 } : SyncResult).processed
      = ([{ id := "1", role := "user", text := "a", timestamp := 0, attachment := none }]
          ++ [{ id := "2", role := "user", text := "b", timestamp := 1,
                attachment := none }] : List ChatMessage).length :=
  (C1_noDoubleProcessing
    [{ id := "1", role := "user", text := "a", timestamp := 0, attachment := none }]
    [{ id := "2", role := "user", text := "b", timestamp := 1, attachment := none }]
    0
    { context := [],
      newInput := [{ id := "1", role := "user", text := "a", timestamp := 0,
                     attachment := none }],
      processed := 1 }
    { context := [{ id := "1", role := "user", text := "a", timestamp := 0,
                    attachment := none }],
      newInput := [{ id := "2", role := "user", text := "b", timestamp := 1,
                     attachment := none }],
      processed := 2 }
    (by decide) (by decide)).1

/-! ### Claim C9 -/

theorem stepState_invariant (s : List ChatMessage × Nat) (e : StreamEvent)
    (h : s.2 ≤ s.1.length) : (stepState s e).2 ≤ (stepState s e).1.length := by
  rcases s with ⟨msgs, p⟩
  cases e with
  | append m => simp only [stepState]; simp at h ⊢; omega
  | flush =>
    simp only [stepState, flushCursor]
    split <;> simp at h ⊢ <;> omega

theorem stepState_mono (s : List ChatMessage × Nat) (e : StreamEvent) :
    s.2 ≤ (stepState s e).2 := by
  rcases s with ⟨msgs, p⟩
  cases e with
  | append m => simp [stepState]
  | flush =>
    simp only [stepState, flushCursor]
    split
    · simp
    · next hc => omega

theorem foldl_stepState_invariant :
    ∀ (evs : List StreamEvent) (init : List ChatMessage × Nat),
      init.2 ≤ init.1.length →
      (evs.foldl stepState init).2 ≤ (evs.foldl stepState init).1.length := by
  intro evs
  induction evs with
  | nil => intro init h; exact h
  | cons e es ih =>
    intro init h
    exact ih (stepState init e) (stepState_invariant init e h)

theorem handleAutoSync_cursor (st : AppState) (messages : List ChatMessage) (p : Nat)
    (outcome : Except GeminiError ExtractionResult)
    (entryId nowISO : String) (nowMs : Nat) (nowTimeStr : String) :
    (handleAutoSync st messages p outcome entryId nowISO nowMs nowTimeStr).2
      = flushCursor messages p := by
  by_cases hp : messages.length ≤ p
  · rw [handleAutoSync, handleAutoSyncSlice_neg messages p hp, flushCursor, if_pos hp]
  · rw [handleAutoSync, handleAutoSyncSlice_pos messages p (by omega), flushCursor, if_neg hp]
    cases outcome with
    | error e => rfl
    | ok r => rfl

/-- C9: for any sequence of message appends and consolidation flushes on one
conversation stream, the cursor is non-decreasing over time, always satisfies
`0 ≤ processedCount ≤ stream length`, and a flush moves the cursor exactly as
handleAutoSync does (`flushCursor`), for every extraction outcome. -/
theorem C9_cursorMonotone (init : List ChatMessage × Nat) (evs : List StreamEvent)
    (hinit : init.2 ≤ init.1.length) :
    (∀ n, 0 ≤ ((evs.take n).foldl stepState init).2 ∧
        ((evs.take n).foldl stepState init).2 ≤ ((evs.take n).foldl stepState init).1.length) ∧
    (∀ n, ((evs.take n).foldl stepState init).2 ≤ ((evs.take (n + 1)).foldl stepState init).2) ∧
    (∀ (st : AppState) (messages : List ChatMessage) (p : Nat)
        (outcome : Except GeminiError ExtractionResult)
        (entryId nowISO : String) (nowMs : Nat) (nowTimeStr : String),
        (handleAutoSync st messages p outcome entryId nowISO nowMs nowTimeStr).2
          = flushCursor messages p) := by
  refine ⟨?_, ?_, handleAutoSync_cursor⟩
  · intro n
    exact ⟨Nat.zero_le _, foldl_stepState_invariant (evs.take n) init hinit⟩
  · intro n
    rw [List.take_succ, List.foldl_append]
    cases hnth : evs[n]? with
    | none => simp
    | some e =>
      simp only [Option.toList_some, List.foldl_cons, List.foldl_nil]
      exact stepState_mono _ e

/-- C9 witness: the cursor bound and step behaviour on a concrete stream of
one append followed by a flush. -/
theorem C9_cursorMonotone_witness :
    (([StreamEvent.append { id := "1", role := "user", text := "a", timestamp := 0,
                            attachment := none },
       StreamEvent.flush].take 2).foldl stepState (([] : List ChatMessage), 0)).2
      ≤ (([StreamEvent.append { id := "1", role := "user", text := "a", timestamp := 0,
                                attachment := none },
           StreamEvent.flush].take 2).foldl stepState (([] : List ChatMessage), 0)).1.length :=
  ((C9_cursorMonotone (([] : List ChatMessage), 0)
    [StreamEvent.append { id := "1", role := "user", text := "a", timestamp := 0,
                          attachment := none },
     StreamEvent.flush]
    (by decide)).1 2).2

/-! ### handleAutoSync evaluation helpers (claims C2, C3, C7) -/

theorem handleAutoSync_ok_unfold (st : AppState) (messages : List ChatMessage) (p : Nat)
    (r : ExtractionResult) (entryId nowISO : String) (nowMs : Nat) (nowT : String)
    (hp : p < messages.length) :
    handleAutoSync st messages p (.ok r) entryId nowISO nowMs nowT =
      ({ entries :=
           if shouldCreateEntryOf r (collectMedia (messages.drop p)) then
             if strTruthy (finalContentOf r (rawUserTextOf (messages.drop p)))
                 || (collectMedia (messages.drop p)).length != 0 then
               saveEntry st.entries
                 { id := entryId
                   title := finalTitleOf r (rawUserTextOf (messages.drop p))
                     (collectMedia (messages.drop p)) nowT
                   content := (finalContentOf r (rawUserTextOf (messages.drop p))).getD ""
                   date := nowISO, mode := JournalMode.personal
                   tags := r.tags.getD []
                   media := collectMedia (messages.drop p)
                   tasks := if r.tasks.length != 0 then
                       materializeTasks entryId
                         (shouldCreateEntryOf r (collectMedia (messages.drop p))) nowISO r.tasks
                     else []
                   calendarEvents := if r.calendarEvents.length != 0 then
                       materializeEvents entryId
                         (shouldCreateEntryOf r (collectMedia (messages.drop p))) r.calendarEvents
                     else []
                   transactions := if r.transactions.length != 0 then
                       materializeTxs entryId
                         (shouldCreateEntryOf r (collectMedia (messages.drop p))) nowISO
                         r.transactions
                     else []
                   lastModified := nowMs }
             else st.entries
           else st.entries
         calendar := if r.calendarEvents.length != 0 then
             addCalendarEvents st.calendar
               (if r.calendarEvents.length != 0 then
                 materializeEvents entryId
                   (shouldCreateEntryOf r (collectMedia (messages.drop p))) r.calendarEvents
               else [])
           else st.calendar
         tasks := if r.tasks.length != 0 then
             saveTasks st.tasks
               (if r.tasks.length != 0 then
                 materializeTasks entryId
                   (shouldCreateEntryOf r (collectMedia (messages.drop p))) nowISO r.tasks
               else [])
           else st.tasks
         finance := if r.transactions.length != 0 then
             addTransactions st.finance
               (if r.transactions.length != 0 then
                 materializeTxs entryId
                   (shouldCreateEntryOf r (collectMedia (messages.drop p))) nowISO r.transactions
               else [])
           else st.finance },
       messages.length) := by
  rw [handleAutoSync, handleAutoSyncSlice_pos messages p hp]

theorem bne_len_true_of_ne_nil {l : List α} (h : l ≠ []) : (l.length != 0) = true := by
  cases l with
  | nil => exact absurd rfl h
  | cons x xs => rfl

theorem handleAutoSync_ok_tasks (st : AppState) (messages : List ChatMessage) (p : Nat)
    (r : ExtractionResult) (entryId nowISO : String) (nowMs : Nat) (nowT : String)
    (hp : p < messages.length)
    (htfresh : ∀ x ∈ st.tasks,
      ∀ t ∈ materializeTasks entryId
          (shouldCreateEntryOf r (collectMedia (messages.drop p))) nowISO r.tasks,
        x.id ≠ t.id) :
    (handleAutoSync st messages p (.ok r) entryId nowISO nowMs nowT).1.tasks
      = st.tasks ++ materializeTasks entryId
          (shouldCreateEntryOf r (collectMedia (messages.drop p))) nowISO r.tasks := by
  rw [handleAutoSync_ok_unfold st messages p r entryId nowISO nowMs nowT hp]
  dsimp only
  by_cases hnil : r.tasks = []
  · rw [hnil]
    simp [materializeTasks, mapWithIndex]
  · rw [if_pos (bne_len_true_of_ne_nil hnil), if_pos (bne_len_true_of_ne_nil hnil)]
    exact saveTasks_fresh_append _ st.tasks htfresh
      (materializeTasks_pairwise_ids _ _ _ _)

theorem handleAutoSync_ok_calendar (st : AppState) (messages : List ChatMessage) (p : Nat)
    (r : ExtractionResult) (entryId nowISO : String) (nowMs : Nat) (nowT : String)
    (hp : p < messages.length)
    (hevfresh : ∀ c ∈ st.calendar,
      ∀ ev ∈ materializeEvents entryId
          (shouldCreateEntryOf r (collectMedia (messages.drop p))) r.calendarEvents,
        c.id ≠ ev.id) :
    (handleAutoSync st messages p (.ok r) entryId nowISO nowMs nowT).1.calendar
      = st.calendar ++ materializeEvents entryId
          (shouldCreateEntryOf r (collectMedia (messages.drop p))) r.calendarEvents := by
  rw [handleAutoSync_ok_unfold st messages p r entryId nowISO nowMs nowT hp]
  dsimp only
  by_cases hnil : r.calendarEvents = []
  · rw [hnil]
    simp [materializeEvents, mapWithIndex]
  · rw [if_pos (bne_len_true_of_ne_nil hnil), if_pos (bne_len_true_of_ne_nil hnil)]
    exact addCalendarEvents_fresh st.calendar _ hevfresh

theorem handleAutoSync_ok_finance (st : AppState) (messages : List ChatMessage) (p : Nat)
    (r : ExtractionResult) (entryId nowISO : String) (nowMs : Nat) (nowT : String)
    (hp : p < messages.length) :
    (handleAutoSync st messages p (.ok r) entryId nowISO nowMs nowT).1.finance
      = st.finance ++ materializeTxs entryId
          (shouldCreateEntryOf r (collectMedia (messages.drop p))) nowISO r.transactions := by
  rw [handleAutoSync_ok_unfold st messages p r entryId nowISO nowMs nowT hp]
  dsimp only
  by_cases hnil : r.transactions = []
  · rw [hnil]
    simp [materializeTxs, mapWithIndex]
  · rw [if_pos (bne_len_true_of_ne_nil hnil), if_pos (bne_len_true_of_ne_nil hnil)]
    rfl

theorem handleAutoSync_ok_entries_any (st : AppState) (messages : List ChatMessage) (p : Nat)
    (r : ExtractionResult) (entryId nowISO : String) (nowMs : Nat) (nowT : String)
    (hp : p < messages.length)
    (hfresh : ∀ e ∈ st.entries, e.id ≠ entryId) :
    ((handleAutoSync st messages p (.ok r) entryId nowISO nowMs nowT).1.entries.any
        (fun e => e.id == entryId))
      = (shouldCreateEntryOf r (collectMedia (messages.drop p))
          && (strTruthy (finalContentOf r (rawUserTextOf (messages.drop p)))
              || (collectMedia (messages.drop p)).length != 0)) := by
  rw [handleAutoSync_ok_unfold st messages p r entryId nowISO nowMs nowT hp]
  dsimp only
  by_cases hsce : shouldCreateEntryOf r (collectMedia (messages.drop p)) = true
  · rw [hsce, if_pos rfl]
    by_cases hgate : (strTruthy (finalContentOf r (rawUserTextOf (messages.drop p)))
        || (collectMedia (messages.drop p)).length != 0) = true
    · rw [hgate, if_pos rfl, saveEntry_fresh st.entries _ (fun x hx => hfresh x hx)]
      simp
    · rw [Bool.not_eq_true] at hgate
      rw [hgate, if_neg (by simp), Bool.true_and, any_id_eq_false hfresh]
  · rw [Bool.not_eq_true] at hsce
    rw [hsce, if_neg (by simp), Bool.false_and, any_id_eq_false hfresh]

theorem handleAutoSync_ok_entries_mem (st : AppState) (messages : List ChatMessage) (p : Nat)
    (r : ExtractionResult) (entryId nowISO : String) (nowMs : Nat) (nowT : String)
    (hp : p < messages.length)
    (hfresh : ∀ e ∈ st.entries, e.id ≠ entryId) :
    ∀ e ∈ (handleAutoSync st messages p (.ok r) entryId nowISO nowMs nowT).1.entries,
      e.id = entryId →
      e.content = (finalContentOf r (rawUserTextOf (messages.drop p))).getD "" ∧
      e.media = collectMedia (messages.drop p) := by
  rw [handleAutoSync_ok_unfold st messages p r entryId nowISO nowMs nowT hp]
  dsimp only
  intro e he hid
  by_cases hsce : shouldCreateEntryOf r (collectMedia (messages.drop p)) = true
  · rw [hsce, if_pos rfl] at he
    by_cases hgate : (strTruthy (finalContentOf r (rawUserTextOf (messages.drop p)))
        || (collectMedia (messages.drop p)).length != 0) = true
    · rw [hgate, if_pos rfl, saveEntry_fresh st.entries _ (fun x hx => hfresh x hx)] at he
      rcases List.mem_append.mp he with he' | he'
      · exact absurd hid (hfresh e he')
      · rw [List.mem_singleton] at he'
        rw [he']
        exact ⟨rfl, rfl⟩
    · rw [Bool.not_eq_true] at hgate
      rw [hgate, if_neg (by simp)] at he
      exact absurd hid (hfresh e he)
  · rw [Bool.not_eq_true] at hsce
    rw [hsce, if_neg (by simp)] at he
    exact absurd hid (hfresh e he)

/-! ### Claim C2 -/

/-- C2: a journal entry is persisted for a consolidation batch if and only if
`shouldCreateEntry` holds (`hasContent === true` or an image attachment is
present in the new input) and, additionally, the derived `finalContent` is
truthy or media is present; a persisted batch entry carries the derived
content (empty for a media-only batch) and exactly the collected media; and
the extracted tasks, calendar events and transactions are appended to their
collections regardless of whether an entry is created. -/
theorem C2_entryGating (st : AppState) (messages : List ChatMessage) (p : Nat)
    (r : ExtractionResult) (entryId nowISO : String) (nowMs : Nat) (nowT : String)
    (hp : p < messages.length)
    (hfresh : ∀ e ∈ st.entries, e.id ≠ entryId)
    (htfresh : ∀ x ∈ st.tasks,
      ∀ t ∈ materializeTasks entryId
          (shouldCreateEntryOf r (collectMedia (messages.drop p))) nowISO r.tasks,
        x.id ≠ t.id)
    (hevfresh : ∀ c ∈ st.calendar,
      ∀ ev ∈ materializeEvents entryId
          (shouldCreateEntryOf r (collectMedia (messages.drop p))) r.calendarEvents,
        c.id ≠ ev.id) :
    (((handleAutoSync st messages p (.ok r) entryId nowISO nowMs nowT).1.entries.any
        (fun e => e.id == entryId))
      = (shouldCreateEntryOf r (collectMedia (messages.drop p))
          && (strTruthy (finalContentOf r (rawUserTextOf (messages.drop p)))
              || (collectMedia (messages.drop p)).length != 0))) ∧
    (∀ e ∈ (handleAutoSync st messages p (.ok r) entryId nowISO nowMs nowT).1.entries,
        e.id = entryId →
        e.content = (finalContentOf r (rawUserTextOf (messages.drop p))).getD "" ∧
        e.media = collectMedia (messages.drop p)) ∧
    ((handleAutoSync st messages p (.ok r) entryId nowISO nowMs nowT).1.tasks
      = st.tasks ++ materializeTasks entryId
          (shouldCreateEntryOf r (collectMedia (messages.drop p))) nowISO r.tasks) ∧
    ((handleAutoSync st messages p (.ok r) entryId nowISO nowMs nowT).1.calendar
      = st.calendar ++ materializeEvents entryId
          (shouldCreateEntryOf r (collectMedia (messages.drop p))) r.calendarEvents) ∧
    ((handleAutoSync st messages p (.ok r) entryId nowISO nowMs nowT).1.finance
      = st.finance ++ materializeTxs entryId
          (shouldCreateEntryOf r (collectMedia (messages.drop p))) nowISO r.transactions) :=
  ⟨handleAutoSync_ok_entries_any st messages p r entryId nowISO nowMs nowT hp hfresh,
   handleAutoSync_ok_entries_mem st messages p r entryId nowISO nowMs nowT hp hfresh,
   handleAutoSync_ok_tasks st messages p r entryId nowISO nowMs nowT hp htfresh,
   handleAutoSync_ok_calendar st messages p r entryId nowISO nowMs nowT hp hevfresh,
   handleAutoSync_ok_finance st messages p r entryId nowISO nowMs nowT hp⟩

/-- C2 witness: an `ExtractionResult` with `hasContent := false` plus one
image attachment in the new input still persists an entry for the batch. -/
theorem C2_entryGating_witness :
    ((handleAutoSync { entries := [], calendar := [], tasks := [], finance := [] }
        [{ id := "m1", role := "user", text := "", timestamp := 0,
           attachment := some { atype := "image", content := "IMG",
                                mimeType := some "image/png", aname := none } }]
        0
        (.ok { hasContent := some false, title := none, content := none, tags := none,
               calendarEvents := [], tasks := [], transactions := [] })
        "B" "NOW" 7 "ts").1.entries.any (fun e => e.id == "B")) = true := by
  have h := (C2_entryGating
    { entries := [], calendar := [], tasks := [], finance := [] }
    [{ id := "m1", role := "user", text := "", timestamp := 0,
       attachment := some { atype := "image", content := "IMG",
                            mimeType := some "image/png", aname := none } }]
    0
    { hasContent := some false, title := none, content := none, tags := none,
      calendarEvents := [], tasks := [], transactions := [] }
    "B" "NOW" 7 "ts" (by decide) (by simp) (by simp) (by simp)).1
  rw [h]
  simp [shouldCreateEntryOf, collectMedia, jsOrStr]

/-! ### Claim C3 -/

/-- C3 counterexample: `linkedEntryId` can be set to the batch id without any
entry being persisted. With `hasContent := true` but no model content, no
user text, and no media, the materialized task carries
`linkedEntryId = some "B"` while the entries collection stays empty — no
entry with id `B` is persisted for the batch. -/
theorem C3_counterexample :
    ((handleAutoSync { entries := [], calendar := [], tasks := [], finance := [] }
        [{ id := "m1", role := "model", text := "hi", timestamp := 0, attachment := none }]
        0
        (.ok { hasContent := some true, title := none, content := none, tags := none,
               calendarEvents := [], tasks := [{ title := "call", dueDate := none }],
               transactions := [] })
        "B" "NOW" 7 "ts").1.tasks.all (fun t => t.linkedEntryId == some "B")) = true ∧
    ((handleAutoSync { entries := [], calendar := [], tasks := [], finance := [] }
        [{ id := "m1", role := "model", text := "hi", timestamp := 0, attachment := none }]
        0
        (.ok { hasContent := some true, title := none, content := none, tags := none,
               calendarEvents := [], tasks := [{ title := "call", dueDate := none }],
               transactions := [] })
        "B" "NOW" 7 "ts").1.tasks.length = 1) ∧
    ((handleAutoSync { entries := [], calendar := [], tasks := [], finance := [] }
        [{ id := "m1", role := "model", text := "hi", timestamp := 0, attachment := none }]
        0
        (.ok { hasContent := some true, title := none, content := none, tags := none,
               calendarEvents := [], tasks := [{ title := "call", dueDate := none }],
               transactions := [] })
        "B" "NOW" 7 "ts").1.entries = []) := by
  rw [handleAutoSync_ok_unfold _ _ _ _ _ _ _ _ (by decide)]
  refine ⟨?_, ?_, ?_⟩ <;>
    simp [shouldCreateEntryOf, collectMedia, rawUserTextOf, finalContentOf, strTruthy,
      materializeTasks, mapWithIndex, saveTasks, saveTaskOne, jsOrStr,
      show ("\n".intercalate ([] : List String)) = "" from rfl]

/-- C3 amended: every materialized task, event and transaction of batch `B`
has id `B-task-i` / `B-evt-i` / `B-tx-i` (so the batch id is a prefix of every
derived id), and its `linkedEntryId` equals `B` if and only if
`shouldCreateEntry` holds — not if and only if an entry was persisted: an
entry is persisted only when `shouldCreateEntry` holds, but when
`shouldCreateEntry` holds with empty final content and no media, the links
are set even though no entry is persisted. -/
theorem C3_amendedThm (entryId : String) (sce : Bool) (nowISO : String)
    (r : ExtractionResult) :
    (∀ (i : Nat) (c : TaskCandidate) (t : Task), r.tasks.get? i = some c →
        (materializeTasks entryId sce nowISO r.tasks).get? i = some t →
        t.id = entryId ++ "-task-" ++ natToString i ∧
        t.linkedEntryId = (if sce then some entryId else none)) ∧
    (∀ (i : Nat) (c : EventCandidate) (e : CalendarEvent), r.calendarEvents.get? i = some c →
        (materializeEvents entryId sce r.calendarEvents).get? i = some e →
        e.id = entryId ++ "-evt-" ++ natToString i ∧
        e.linkedEntryId = (if sce then some entryId else none)) ∧
    (∀ (i : Nat) (c : TxCandidate) (x : FinanceTransaction), r.transactions.get? i = some c →
        (materializeTxs entryId sce nowISO r.transactions).get? i = some x →
        x.id = entryId ++ "-tx-" ++ natToString i ∧
        x.linkedEntryId = (if sce then some entryId else none)) ∧
    (∀ (st : AppState) (messages : List ChatMessage) (p : Nat) (nowMs : Nat) (nowT : String),
        p < messages.length →
        (∀ e ∈ st.entries, e.id ≠ entryId) →
        ((handleAutoSync st messages p (.ok r) entryId nowISO nowMs nowT).1.entries.any
            (fun e => e.id == entryId)) = true →
        shouldCreateEntryOf r (collectMedia (messages.drop p)) = true) := by
  refine ⟨?_, ?_, ?_, ?_⟩
  · intro i c t hc ht
    rw [materializeTasks, mapWithIndex_get?, hc] at ht
    have hteq := (Option.some.injEq _ _).mp ht
    rw [← hteq]
    simp
  · intro i c e hc he
    rw [materializeEvents, mapWithIndex_get?, hc] at he
    have heeq := (Option.some.injEq _ _).mp he
    rw [← heeq]
    simp
  · intro i c x hc hx
    rw [materializeTxs, mapWithIndex_get?, hc] at hx
    have hxeq := (Option.some.injEq _ _).mp hx
    rw [← hxeq]
    simp
  · intro st messages p nowMs nowT hp hfresh hany
    rw [handleAutoSync_ok_entries_any st messages p r entryId nowISO nowMs nowT hp hfresh]
      at hany
    simp only [Bool.and_eq_true] at hany
    exact hany.1

/-- C3 amended witness: the id shape and link of the first materialized task
of a concrete batch with `shouldCreateEntry = true`. -/
theorem C3_amendedThm_witness :
    ({ id := "B" ++ "-task-" ++ natToString 0, title := "call", completed := false,
       dueDate := some "NOW", linkedEntryId := some "B" } : Task).id
        = "B" ++ "-task-" ++ natToString 0 ∧
    ({ id := "B" ++ "-task-" ++ natToString 0, title := "call", completed := false,
       dueDate := some "NOW", linkedEntryId := some "B" } : Task).linkedEntryId
        = (if true then some "B" else none) :=
  (C3_amendedThm "B" true "NOW"
    { hasContent := some true, title := none, content := none, tags := none,
      calendarEvents := [], tasks := [{ title := "call", dueDate := none }],
      transactions := [] }).1 0 { title := "call", dueDate := none }
    { id := "B" ++ "-task-" ++ natToString 0, title := "call", completed := false,
      dueDate := some "NOW", linkedEntryId := some "B" } rfl rfl

/-! ### Claim C7 -/

/-- C7 counterexample: a transaction candidate with no `date` is not dropped —
it is materialized with `date` defaulted to the current time. -/
theorem C7_counterexample :
    materializeTxs "B" true "NOW"
        [{ description := "tea", amount := 10, txType := "expense",
           category := none, date := none }]
      = [{ id := "B-tx-0", amount := 10, txType := "expense", category := none,
           description := "tea", date := "NOW", linkedEntryId := some "B" }] := by
  simp only [materializeTxs, mapWithIndex, jsOrStr, natToString_zero]
  decide

/-- C7 amended: during materialization no candidate is ever dropped — a task
candidate missing `dueDate` gets it defaulted to the current time, a
transaction candidate missing its `date` likewise gets the current time (it
is not dropped), and an event candidate missing `startTime` is materialized
unchanged, with the field simply left absent (neither dropped nor
defaulted). -/
theorem C7_amendedThm (B : String) (sce : Bool) (nowISO : String)
    (tcs : List TaskCandidate) (ecs : List EventCandidate) (xcs : List TxCandidate) :
    ((materializeTasks B sce nowISO tcs).length = tcs.length) ∧
    (∀ (i : Nat) (c : TaskCandidate) (t : Task),
        tcs.get? i = some c → (materializeTasks B sce nowISO tcs).get? i = some t →
        c.dueDate = none → t.dueDate = some nowISO) ∧
    ((materializeTxs B sce nowISO xcs).length = xcs.length) ∧
    (∀ (i : Nat) (c : TxCandidate) (x : FinanceTransaction),
        xcs.get? i = some c → (materializeTxs B sce nowISO xcs).get? i = some x →
        c.date = none → x.date = nowISO) ∧
    ((materializeEvents B sce ecs).length = ecs.length) ∧
    (∀ (i : Nat) (c : EventCandidate) (e : CalendarEvent),
        ecs.get? i = some c → (materializeEvents B sce ecs).get? i = some e →
        e.startTime = c.startTime ∧ e.endTime = c.endTime ∧ e.title = c.title) := by
  refine ⟨mapWithIndex_length _ 0 tcs, ?_, mapWithIndex_length _ 0 xcs, ?_,
    mapWithIndex_length _ 0 ecs, ?_⟩
  · intro i c t hc ht hnone
    rw [materializeTasks, mapWithIndex_get?, hc] at ht
    have hteq := (Option.some.injEq _ _).mp ht
    rw [← hteq]
    simp [jsOrStr, hnone]
  · intro i c x hc hx hnone
    rw [materializeTxs, mapWithIndex_get?, hc] at hx
    have hxeq := (Option.some.injEq _ _).mp hx
    rw [← hxeq]
    simp [jsOrStr, hnone]
  · intro i c e hc he
    rw [materializeEvents, mapWithIndex_get?, hc] at he
    have heeq := (Option.some.injEq _ _).mp he
    rw [← heeq]
    exact ⟨rfl, rfl, rfl⟩

/-- C7 amended witness: a task candidate with no due date, materialized at a
concrete batch, ends with `dueDate` equal to the current time. -/
theorem C7_amendedThm_witness :
    ({ id := "B" ++ "-task-" ++ natToString 0, title := "pay rent", completed := false,
       dueDate := some "NOW", linkedEntryId := some "B" } : Task).dueDate = some "NOW" :=
  (C7_amendedThm "B" true "NOW" [{ title := "pay rent", dueDate := none }] [] []).2.1
    0 { title := "pay rent", dueDate := none }
    { id := "B" ++ "-task-" ++ natToString 0, title := "pay rent", completed := false,
      dueDate := some "NOW", linkedEntryId := some "B" } rfl rfl rfl

/-! ### Claim C8 -/

/-- C8: creating a weekly-repeating event produces exactly 12 calendar events
whose start dates are 7 days apart, sharing title and description but (for an
injective id generator) pairwise-distinct ids, together with one mirrored
task per event whose due date equals that event's start time and whose id is
`task-mirror-` followed by the event's id; the daily, monthly and none repeat
modes produce 30, 6 and 1 events respectively. -/
theorem C8_recurrenceExpansion (gen : Nat → String) (monthAdd : Int → Nat → Int)
    (base : Int) (title descr startT endT : String)
    (hgen : ∀ i j, i < 12 → j < 12 → gen i = gen j → i = j)
    (evs : List WidgetEvent) (tks : List WidgetTask)
    (hres : handleSaveEvent gen .weekly monthAdd base title descr startT endT
        = some (evs, tks)) :
    evs.length = 12 ∧
    (∀ (i : Nat) (e1 e2 : WidgetEvent), evs.get? i = some e1 → evs.get? (i + 1) = some e2 →
        e2.startDay = e1.startDay + 7) ∧
    (∀ e ∈ evs, e.title = title ∧ e.description = descr) ∧
    (∀ (i j : Nat) (e1 e2 : WidgetEvent), i ≠ j → evs.get? i = some e1 →
        evs.get? j = some e2 → e1.id ≠ e2.id) ∧
    tks.length = 12 ∧
    (∀ (i : Nat) (e : WidgetEvent), evs.get? i = some e → tks.get? i = some
        { id := "task-mirror-" ++ e.id, title := e.title, completed := false,
          dueDay := e.startDay, dueTod := e.startTod, linkedEntryId := some e.id }) ∧
    ((handleSaveEvent gen .daily monthAdd base title descr startT endT).map
        (fun pr => pr.1.length)) = some 30 ∧
    ((handleSaveEvent gen .monthly monthAdd base title descr startT endT).map
        (fun pr => pr.1.length)) = some 6 ∧
    ((handleSaveEvent gen .norepeat monthAdd base title descr startT endT).map
        (fun pr => pr.1.length)) = some 1 := by
  by_cases hcond : title = "" ∨ startT = "" ∨ endT = ""
  · rw [handleSaveEvent, if_pos hcond] at hres
    exact Option.noConfusion hres
  rw [handleSaveEvent, if_neg hcond] at hres
  dsimp only at hres
  injection hres with hpair
  injection hpair with hE hT0
  have hT : tks = evs.map (fun evt =>
      ({ id := "task-mirror-" ++ evt.id, title := evt.title, completed := false
         dueDay := evt.startDay, dueTod := evt.startTod,
         linkedEntryId := some evt.id } : WidgetTask)) := by
    rw [← hT0, ← hE]
  have hget : ∀ (i : Nat) (e : WidgetEvent), evs.get? i = some e →
      i < 12 ∧ e = { id := gen i, title := title, description := descr
                     startDay := instanceDay RepeatMode.weekly monthAdd base i
                     startTod := startT
                     endDay := instanceDay RepeatMode.weekly monthAdd base i
                     endTod := endT } := by
    intro i e he
    rw [← hE, List.get?_map] at he
    cases hr : (List.range (recurrenceCount RepeatMode.weekly)).get? i with
    | none => rw [hr] at he; exact Option.noConfusion he
    | some k =>
      rw [hr] at he
      have hi : i < 12 := by
        have h2 := List.get?_eq_some.mp hr
        rcases h2 with ⟨hlt, _⟩
        simpa [recurrenceCount] using hlt
      have hk : k = i := by
        rw [List.get?_range (by simpa [recurrenceCount] using hi)] at hr
        have h3 := (Option.some.injEq _ _).mp hr
        omega
      subst hk
      rw [Option.map_some'] at he
      refine ⟨hi, ?_⟩
      have h4 := (Option.some.injEq _ _).mp he
      rw [← h4]
  refine ⟨?_, ?_, ?_, ?_, ?_, ?_, ?_, ?_, ?_⟩
  · rw [← hE]
    simp [recurrenceCount]
  · intro i e1 e2 h1 h2
    obtain ⟨hi1, he1⟩ := hget i e1 h1
    obtain ⟨hi2, he2⟩ := hget (i + 1) e2 h2
    rw [he1, he2]
    simp only [instanceDay]
    push_cast
    ring
  · intro e he
    rw [← hE] at he
    rcases List.mem_map.mp he with ⟨i, _, hei⟩
    rw [← hei]
    exact ⟨rfl, rfl⟩
  · intro i j e1 e2 hij h1 h2
    obtain ⟨hi1, he1⟩ := hget i e1 h1
    obtain ⟨hi2, he2⟩ := hget j e2 h2
    rw [he1, he2]
    simp only
    intro hgeq
    exact hij (hgen i j hi1 hi2 hgeq)
  · rw [hT, List.length_map, ← hE]
    simp [recurrenceCount]
  · intro i e he
    rw [hT, List.get?_map, he]
    rfl
  · rw [handleSaveEvent, if_neg hcond]
    simp [recurrenceCount]
  · rw [handleSaveEvent, if_neg hcond]
    simp [recurrenceCount]
  · rw [handleSaveEvent, if_neg hcond]
    simp [recurrenceCount]

/-- C8 witness: the daily mode of the direct creation path, with a concrete
injective id generator, yields exactly 30 events. -/
theorem C8_recurrenceExpansion_witness :
    ((handleSaveEvent natToString RepeatMode.daily (fun b _ => b) 0 "T" "D" "09:00"
        "10:00").map (fun pr => pr.1.length)) = some 30 :=
  (C8_recurrenceExpansion natToString (fun b _ => b) 0 "T" "D" "09:00" "10:00"
    (fun i j _ _ h => natToString_injective i j h) _ _ rfl).2.2.2.2.2.2.1

end Journal
